import Mathlib

/-!
Verification of the loan lifecycle engine of this repository
(source files loans.py and loan_templates.py).

Modelling choices of the shallow embedding:
monetary values are rationals; the Python call round(x, 2)
(round half to even) is modelled by round2; calendar dates are a record
Date of year, month and day, ordered the way the ISO-8601 timestamp
strings stored in the database compare (time-of-day granularity is
dropped, no verified property depends on it); Python dictionaries for
loans, clients, payments and gun licences are records; a raised
exception is an Except error; remote queries are modelled either by the
database contents themselves (happy path) or by injectable
Except-valued query results (failure paths).
-/

/-- Python round to an integer: round half to even (banker's rounding). -/
def roundHalfEven (q : ℚ) : ℤ :=
  let f : ℤ := Int.floor q
  let frac : ℚ := q - (f : ℚ)
  if frac < 1/2 then f
  else if 1/2 < frac then f + 1
  else if f % 2 = 0 then f else f + 1

/-- Python round(x, 2) on a rational. -/
def round2 (q : ℚ) : ℚ := (roundHalfEven (q * 100) : ℚ) / 100

/-- A calendar date, as stored in the ISO-8601 columns of the store. -/
structure Date where
  year : Nat
  month : Nat
  day : Nat
  deriving DecidableEq, Repr

/-- Order key matching ISO-8601 date comparison (year, then month, then day). -/
def Date.key (d : Date) : Nat := d.year * 10000 + d.month * 100 + d.day

/-- Comparison of dates the way their ISO strings compare in store queries. -/
def dateLE (a b : Date) : Bool := decide (a.key ≤ b.key)

/-- Strict comparison of dates, as in the payment_due_date < now query filter. -/
def dateLT (a b : Date) : Bool := decide (a.key < b.key)

/-- Gregorian leap year test, as implemented by the Python calendar module. -/
def isLeapYear (y : Nat) : Bool := (y % 4 == 0 && y % 100 != 0) || y % 400 == 0

/-- calendar.monthrange(y, m)[1]: the number of days of month m of year y. -/
def daysInMonth (y m : Nat) : Nat :=
  if m = 2 then (if isLeapYear y then 29 else 28)
  else if m = 4 ∨ m = 6 ∨ m = 9 ∨ m = 11 then 30
  else 31

/-- datetime(now.year, now.month, 1): first day of the month of a date. -/
def firstOfMonth (d : Date) : Date := { year := d.year, month := d.month, day := 1 }

/-- Year and month of the month after month m of year y, as computed at
loan_templates.py:54-59 (month+1 if month < 12 else 1, with the year bumped). -/
def next_month_of (y m : Nat) : Nat × Nat := if m < 12 then (y, m + 1) else (y + 1, 1)

/-- First day of the month after the month of now (loans.py:301-305). -/
def nextMonthStartOf (now : Date) : Date :=
  if now.month = 12 then { year := now.year + 1, month := 1, day := 1 }
  else { year := now.year, month := now.month + 1, day := 1 }

/-- Last day of the month after the month of now (loans.py:307-309). -/
def nextMonthEndOf (now : Date) : Date :=
  let s := nextMonthStartOf now
  { year := s.year, month := s.month, day := daysInMonth s.year s.month }

/-- due_date.replace(day=min(28, monthrange(...)[1])) as used at
loans.py:369-373, loans.py:954-959 and loan_templates.py:18-20: the due
date is moved to day min 28 (last day of its month), keeping month and year. -/
def normalizeDueDate (d : Date) : Date :=
  { year := d.year, month := d.month, day := min 28 (daysInMonth d.year d.month) }

/-- The status column of a loan record. -/
inductive LoanStatus where
  | active
  | overdue
  | paid
  deriving DecidableEq, Repr

/-- A row of the loans table (columns read by the engine; display-only
columns such as interest_rate are omitted, no verified property reads them). -/
structure Loan where
  id : Nat
  invoice_number : Nat
  client_id : Nat
  loan_amount : ℚ
  remaining_balance : ℚ
  /-- The penalties column; none models a record where the value is absent,
  the code reads it with loan.get with default 0. -/
  penalties : Option ℚ
  weapon_cost : Option ℚ
  status : LoanStatus
  payment_due_date : Date
  start_date : Date
  deriving DecidableEq, Repr

/-- A row of the loan_payments table. -/
structure Payment where
  loan_id : Nat
  payment_date : Date
  amount : ℚ
  deriving DecidableEq, Repr

/-- A row of the clients table. -/
structure Client where
  id : Nat
  first_name : String
  last_name : String
  email : String
  deriving DecidableEq, Repr

/-- A row of the gun_licences table (contents are display-only). -/
structure GunLicence where
  id : Nat
  make : String
  deriving DecidableEq, Repr

/-- The remote data store. -/
structure DB where
  loans : List Loan
  clients : List Client
  payments : List Payment
  gun_licences : List GunLicence
  deriving DecidableEq, Repr

/-- Sum of the payment amounts of a loan dated within the current month,
as queried and summed by update_overdue_loans (loans.py:749-775): rows of
loan_payments with the loan's id and payment_date between the first day
of the month of now and now, their amounts added up. -/
def month_payments_for_overdue (payments : List Payment) (loan_id : Nat) (now : Date) : ℚ :=
  ((payments.filter (fun p =>
      p.loan_id == loan_id && dateLE (firstOfMonth now) p.payment_date &&
      dateLE p.payment_date now)).map Payment.amount).sum

/-- The payment-sufficiency test of update_overdue_loans (loans.py:740-781):
the loan is skipped (stays active) when the month's payments reach
round(loan_amount / 3, 2). -/
def sufficient_for_overdue_skip (l : Loan) (payments : List Payment) (now : Date) : Bool :=
  decide (round2 (l.loan_amount / 3) ≤ month_payments_for_overdue payments l.id now)

/-- Sum of the payment amounts of a loan dated within the current month,
as queried and summed by apply_penalties_to_overdue_loans
(loans.py:1218-1253). -/
def month_payments_for_penalty (payments : List Payment) (loan_id : Nat) (now : Date) : ℚ :=
  ((payments.filter (fun p =>
      p.loan_id == loan_id && dateLE (firstOfMonth now) p.payment_date &&
      dateLE p.payment_date now)).map Payment.amount).sum

/-- The payment-sufficiency test of apply_penalties_to_overdue_loans
(loans.py:1209-1259): the loan is skipped when the month's payments reach
round(loan_amount / 3, 2). -/
def sufficient_for_penalty_skip (l : Loan) (payments : List Payment) (now : Date) : Bool :=
  decide (round2 (l.loan_amount / 3) ≤ month_payments_for_penalty payments l.id now)

/-- Whether update_overdue_loans transitions a loan: it was returned by the
status = active and payment_due_date < now query (loans.py:699-704) and its
payments this month fall short of the expected payment (loans.py:777-781). -/
def becomes_overdue (payments : List Payment) (now : Date) (l : Loan) : Bool :=
  l.status == LoanStatus.active && dateLT l.payment_due_date now &&
  !(sufficient_for_overdue_skip l payments now)

/-- The per-loan effect of update_overdue_loans (loans.py:722-825): a
qualifying loan has its status column set to overdue (loans.py:783-787);
every other loan is untouched. -/
def overdue_step (payments : List Payment) (now : Date) (l : Loan) : Loan :=
  if becomes_overdue payments now l then { l with status := LoanStatus.overdue } else l

/-- update_overdue_loans (loans.py:680-835): updates qualifying active
past-due loans to overdue and returns the store together with the number of
loans transitioned. -/
def update_overdue_loans (db : DB) (now : Date) : DB × Nat :=
  ({ db with loans := db.loans.map (overdue_step db.payments now) },
   (db.loans.filter (becomes_overdue db.payments now)).length)

/-- new_penalty at loans.py:1268: round(loan_amount * 0.1, 2). -/
def new_penalty_of (l : Loan) : ℚ := round2 (l.loan_amount * (1/10))

/-- Whether apply_penalties_to_overdue_loans penalises a loan: it was
returned by the status = overdue query (loans.py:1149-1152) and its payments
this month fall short of the expected payment (loans.py:1255-1259). -/
def gets_penalty (payments : List Payment) (now : Date) (l : Loan) : Bool :=
  l.status == LoanStatus.overdue && !(sufficient_for_penalty_skip l payments now)

/-- The per-loan effect of apply_penalties_to_overdue_loans
(loans.py:1191-1315): a qualifying loan has its penalties column set to
current penalties plus the new penalty (loans.py:1261-1275); every other
loan is untouched. -/
def penalty_step (payments : List Payment) (now : Date) (l : Loan) : Loan :=
  if gets_penalty payments now l then
    { l with penalties := some (l.penalties.getD 0 + new_penalty_of l) }
  else l

/-- apply_penalties_to_overdue_loans (loans.py:1111-1322): unless the date
gate fails (not the 3rd and no bypass, loans.py:1126-1133), adds the penalty
to each qualifying overdue loan; returns the store, the number of loans
penalised and the number skipped for sufficient payments. -/
def apply_penalties_to_overdue_loans (db : DB) (now : Date) (bypass_date_check : Bool) :
    DB × Nat × Nat :=
  if !bypass_date_check && !(now.day == 3) then (db, 0, 0)
  else
    ({ db with loans := db.loans.map (penalty_step db.payments now) },
     (db.loans.filter (gets_penalty db.payments now)).length,
     (db.loans.filter (fun l =>
        l.status == LoanStatus.overdue && sufficient_for_penalty_skip l db.payments now)).length)

/-- The store mutations of one run of main (loans.py:503-518):
update_overdue_loans always runs; apply_penalties_to_overdue_loans runs when
test_mode is set or the day is the 3rd, with bypass_date_check := test_mode.
Returns the final store and the three counters.  The notification
operations of the run read the store and send email only; they are modelled
by count-returning functions further below and produce no store. -/
def engine_run (db : DB) (now : Date) (test_mode : Bool) : DB × Nat × Nat × Nat :=
  let r1 := update_overdue_loans db now
  if test_mode || now.day == 3 then
    let r2 := apply_penalties_to_overdue_loans r1.1 now test_mode
    (r2.1, r1.2, r2.2.1, r2.2.2)
  else (r1.1, r1.2, 0, 0)

/-- datetime.replace with a new year and month keeping the day
(loan_templates.py:54-59): raises ValueError, modelled by an Except error,
when the kept day is out of range for the target month. -/
def date_replace_month_year (d : Date) (y m : Nat) : Except Unit Date :=
  if 1 ≤ d.day ∧ d.day ≤ daysInMonth y m then Except.ok { year := y, month := m, day := d.day }
  else Except.error ()

/-- The three payment-schedule months of create_invoice_email
(loan_templates.py:53-59): three successive datetime.replace calls moving
the start date one month forward each time, any of which can raise. -/
def payment_schedule_months (start_date : Date) : Except Unit (Date × Date × Date) :=
  match date_replace_month_year start_date
      (next_month_of start_date.year start_date.month).1
      (next_month_of start_date.year start_date.month).2 with
  | Except.error e => Except.error e
  | Except.ok first =>
    match date_replace_month_year first
        (next_month_of first.year first.month).1
        (next_month_of first.year first.month).2 with
    | Except.error e => Except.error e
    | Except.ok second =>
      match date_replace_month_year second
          (next_month_of second.year second.month).1
          (next_month_of second.year second.month).2 with
      | Except.error e => Except.error e
      | Except.ok third => Except.ok (first, second, third)

/-- The numeric and date content of the email rendered by
create_invoice_email (the HTML around it is display-only). -/
structure InvoiceEmail where
  is_statement : Bool
  due_date : Date
  base_payment : ℚ
  payment_amount : ℚ
  /-- The amount shown in the Payment Amount cell (loan_templates.py:223):
  base_payment when the penalties value equals 0, payment_amount otherwise. -/
  displayed_payment_amount : ℚ
  first_payment_month : Date
  second_payment_month : Date
  third_payment_month : Date
  deriving DecidableEq, Repr

/-- create_invoice_email (loan_templates.py:7-259).  The due date is
normalized to day min 28 last-day (lines 16-22); base_payment is
round(loan_amount / 3, 2) (lines 32-33); with penalties > 0 the amount due
is base plus penalties times base plus a 10 percent surcharge on that
product, rounded (lines 36-48); an Except error models the ValueError a
payment-schedule replace can raise (lines 53-59). -/
def create_invoice_email (loan : Loan) (is_quote : Bool) : Except Unit InvoiceEmail :=
  let due_date := normalizeDueDate loan.payment_due_date
  let base_payment := round2 (loan.loan_amount / 3)
  let penalties : ℚ := loan.penalties.getD 0
  let payment_amount : ℚ :=
    round2 (if 0 < penalties then
        base_payment + penalties * base_payment + penalties * base_payment * (1/10)
      else base_payment)
  match payment_schedule_months loan.start_date with
  | Except.error e => Except.error e
  | Except.ok s =>
    Except.ok
      { is_statement := is_quote
        due_date := due_date
        base_payment := base_payment
        payment_amount := payment_amount
        displayed_payment_amount := if penalties = 0 then base_payment else payment_amount
        first_payment_month := s.1
        second_payment_month := s.2.1
        third_payment_month := s.2.2 }

/-- The per-loan rendering step of main (loans.py:595-622): the document is
a statement when remaining_balance > 0, otherwise a paid invoice; a
template error makes main skip the loan, so no email exists for it. -/
def main_loan_email (l : Loan) : Option InvoiceEmail :=
  match create_invoice_email l (decide (0 < l.remaining_balance)) with
  | Except.ok e => some e
  | Except.error _ => none

/-- The in-memory enrichment get_loans_due_next_month applies to each
returned loan (loans.py:369-373): the due date is normalized. -/
def enrich_loan (l : Loan) : Loan :=
  { l with payment_due_date := normalizeDueDate l.payment_due_date }

/-- get_loans_due_next_month (loans.py:293-382): active loans with
payment_due_date inside the next calendar month (loans.py:316-323), kept
only when their client record exists (loans.py:341-375), due dates
normalized. -/
def get_loans_due_next_month (db : DB) (now : Date) : List Loan :=
  ((db.loans.filter (fun l =>
      l.status == LoanStatus.active &&
      dateLE (nextMonthStartOf now) l.payment_due_date &&
      dateLE l.payment_due_date (nextMonthEndOf now))).filter (fun l =>
        db.clients.any (fun c => c.id == l.client_id))).map enrich_loan

/-- The notification class main assigns a loan on the primary run. -/
inductive DocumentType where
  | statement
  | paidInvoice
  deriving DecidableEq, Repr

/-- The primary-run classification of main (loans.py:553, 595-614): nothing
is classified unless the day is the 22nd or test mode is set; each loan due
next month is a statement when remaining_balance > 0 and a paid invoice
when the balance is cleared. -/
def main_classify_run (db : DB) (now : Date) (test_mode : Bool) :
    List (Nat × DocumentType) :=
  if !test_mode && !(now.day == 22) then []
  else (get_loans_due_next_month db now).map (fun l =>
    (l.id, if 0 < l.remaining_balance then DocumentType.statement else DocumentType.paidInvoice))

/-- The due date displayed in the banner of send_due_date_reminders
(loans.py:1767-1770 and 1834-1841): the stored payment_due_date is parsed
and formatted directly, without the min 28 last-day normalization. -/
def due_date_reminder_displayed_date (l : Loan) : Date := l.payment_due_date

/-- The exception classes seen by the retry logic.  The first three are the
transient transport and timeout errors of smtplib and the network layer;
the last two stand for every other Python exception. -/
inductive PyErr where
  | smtpError
  | connectionError
  | timeoutError
  | valueError
  | genericError
  deriving DecidableEq, Repr

/-- The retry loop of retry_with_backoff (loans.py:129-161), driven by the
outcome of each attempt (attempt k is the k-th call of func).  Returns the
final outcome, the number of calls made, and the list of backoff waits
slept (loans.py:151, delay times factor to the power retries minus one).
A failure whose class is not in exceptions_to_retry escapes the except
clause and propagates at once; once as many failures as the fuel allows
have happened the last error is raised (loans.py:140-149, 163-164). -/
def retry_aux (f : Nat → Except PyErr α) (retryable : PyErr → Bool)
    (initial_delay backoff_factor attempt : Nat) :
    Nat → Except PyErr α × Nat × List Nat
  | 0 => (Except.error PyErr.genericError, 0, [])
  | fuel + 1 =>
    match f attempt with
    | Except.ok a => (Except.ok a, 1, [])
    | Except.error e =>
      if retryable e then
        match fuel with
        | 0 => (Except.error e, 1, [])
        | fuel2 + 1 =>
          let r := retry_aux f retryable initial_delay backoff_factor (attempt + 1) (fuel2 + 1)
          (r.1, r.2.1 + 1, initial_delay * backoff_factor ^ attempt :: r.2.2)
      else (Except.error e, 1, [])

/-- retry_with_backoff (loans.py:112-166): calls f up to max_retries times;
a success is returned at once; a retryable failure is retried after an
exponential backoff wait; after max_retries failures the last error is
raised; with max_retries = 0 the loop body never runs and None (here:
ok none) is returned.  Result: outcome, number of calls, waits slept. -/
def retry_with_backoff (f : Nat → Except PyErr α) (max_retries initial_delay backoff_factor : Nat)
    (retryable : PyErr → Bool) : Except PyErr (Option α) × Nat × List Nat :=
  match max_retries with
  | 0 => (Except.ok none, 0, [])
  | fuel + 1 =>
    let r := retry_aux f retryable initial_delay backoff_factor 0 (fuel + 1)
    (r.1.map some, r.2.1, r.2.2)

/-- The retry class used by every database call site (for example
loans.py:276, 326, 707): exceptions_to_retry keeps its default value
(Exception,), so every error class is retried. -/
def db_retryable : PyErr → Bool := fun _ => true

/-- The retry class used by send_email (loans.py:218-227):
smtplib.SMTPException, ConnectionError and TimeoutError. -/
def email_retryable : PyErr → Bool
  | PyErr.smtpError => true
  | PyErr.connectionError => true
  | PyErr.timeoutError => true
  | PyErr.valueError => false
  | PyErr.genericError => false

/-- Modelled from the spec: the class of transient transport and timeout
errors that section 5 of the spec says are the only retried errors. -/
def is_transient_transport_error : PyErr → Bool
  | PyErr.smtpError => true
  | PyErr.connectionError => true
  | PyErr.timeoutError => true
  | PyErr.valueError => false
  | PyErr.genericError => false

/-- The connectivity probe of main (loans.py:496-501): one direct call of
the loans table query, not wrapped in retry_with_backoff. -/
def main_connectivity_check (f : Nat → Except PyErr α) : Except PyErr α := f 0

/-- update_overdue_loans with its remote queries injectable
(loans.py:680-835): a failed loans query returns count 0 (lines 714-716);
a failed per-loan payments query skips that loan and continues
(lines 760-766); otherwise each queried loan with insufficient payments
this month is updated and counted.  loansQ stands for the result of the
status = active, payment_due_date < now query; paymentsQ for the result of
the per-loan current-month payments query. -/
def update_overdue_loans_run (loansQ : Except Unit (List Loan))
    (paymentsQ : Nat → Except Unit (List Payment)) : Nat :=
  match loansQ with
  | Except.error _ => 0
  | Except.ok ls =>
    ls.foldl (fun acc l =>
      match paymentsQ l.id with
      | Except.error _ => acc
      | Except.ok ps =>
        if round2 (l.loan_amount / 3) ≤ ((ps.map Payment.amount).sum : ℚ) then acc
        else acc + 1) 0

/-- apply_penalties_to_overdue_loans with its remote queries injectable
(loans.py:1111-1322): the date gate returns (0, 0) (lines 1126-1133); a
failed overdue-loans query returns (0, 0) (lines 1157-1185); a failed
per-loan payments query skips the loan (lines 1229-1235); otherwise
sufficient payments count the loan as skipped and insufficient payments
count it as penalised. -/
def apply_penalties_run (bypass_date_check : Bool) (day : Nat)
    (loansQ : Except Unit (List Loan)) (paymentsQ : Nat → Except Unit (List Payment)) :
    Nat × Nat :=
  if !bypass_date_check && !(day == 3) then (0, 0)
  else
    match loansQ with
    | Except.error _ => (0, 0)
    | Except.ok ls =>
      ls.foldl (fun acc l =>
        match paymentsQ l.id with
        | Except.error _ => acc
        | Except.ok ps =>
          if round2 (l.loan_amount / 3) ≤ ((ps.map Payment.amount).sum : ℚ) then
            (acc.1, acc.2 + 1)
          else (acc.1 + 1, acc.2)) (0, 0)

/-- notify_overdue_loans with its remote queries injectable
(loans.py:837-1104): a failed overdue-loans query returns 0
(lines 866-877); a loan without a client record or client email is skipped
(lines 904-915); a template error skips the loan (lines 1068-1071);
otherwise the notification is counted.  A failed payments query only
changes the message text (lines 988-999), it skips nothing. -/
def notify_overdue_run (loansQ : Except Unit (List Loan))
    (clientQ : Nat → Except Unit (List Client)) : Nat :=
  match loansQ with
  | Except.error _ => 0
  | Except.ok ls =>
    ls.foldl (fun acc l =>
      match clientQ l.client_id with
      | Except.error _ => acc
      | Except.ok [] => acc
      | Except.ok (c :: _) =>
        if c.email = "" then acc
        else
          match create_invoice_email (enrich_loan l) true with
          | Except.error _ => acc
          | Except.ok _ => acc + 1) 0

/-- get_loans_due_next_month with its loans query injectable
(loans.py:293-382): any error yields the empty list (lines 380-382). -/
def get_loans_due_next_month_run (loansQ : Except Unit (List Loan))
    (clients : List Client) : List Loan :=
  match loansQ with
  | Except.error _ => []
  | Except.ok ls =>
    (ls.filter (fun l => clients.any (fun c => c.id == l.client_id))).map enrich_loan

/-- send_payment_reminders with its remote queries injectable
(loans.py:1505-1629): nothing happens unless the day is the 22nd
(lines 1517-1520); a failed query yields no loans and count 0
(lines 1526-1531); a loan without a client email is skipped; a template
error skips the loan; otherwise the reminder is counted. -/
def send_payment_reminders_run (day : Nat) (loansQ : Except Unit (List Loan))
    (clients : List Client) : Nat :=
  if !(day == 22) then 0
  else
    (get_loans_due_next_month_run loansQ clients).foldl (fun acc l =>
      match clients.find? (fun c => c.id == l.client_id) with
      | none => acc
      | some c =>
        if c.email = "" then acc
        else
          match create_invoice_email l true with
          | Except.error _ => acc
          | Except.ok _ => acc + 1) 0

/-- send_due_date_reminders with its remote queries injectable
(loans.py:1631-1891): nothing happens unless the day is the 28th
(lines 1643-1646); a failed loans query returns 0 (lines 1672-1687); a
loan without a client record or client email is skipped; a template error
skips the loan; otherwise the reminder is counted. -/
def send_due_date_reminders_run (day : Nat) (loansQ : Except Unit (List Loan))
    (clientQ : Nat → Except Unit (List Client)) : Nat :=
  if !(day == 28) then 0
  else
    match loansQ with
    | Except.error _ => 0
    | Except.ok ls =>
      ls.foldl (fun acc l =>
        match clientQ l.client_id with
        | Except.error _ => acc
        | Except.ok [] => acc
        | Except.ok (c :: _) =>
          if c.email = "" then acc
          else
            match create_invoice_email l true with
            | Except.error _ => acc
            | Except.ok _ => acc + 1) 0

/-- A sample client record. -/
def clientA : Client :=
  { id := 1, first_name := "Ann", last_name := "Smith", email := "ann@example.com" }

/-- A sample evaluation instant: 15 June 2025. -/
def nowJun15 : Date := { year := 2025, month := 6, day := 15 }

/-- A sample active past-due loan of 9000. -/
def loan9000 : Loan :=
  { id := 1, invoice_number := 101, client_id := 1, loan_amount := 9000,
    remaining_balance := 6000, penalties := none, weapon_cost := none,
    status := LoanStatus.active,
    payment_due_date := { year := 2025, month := 5, day := 28 },
    start_date := { year := 2025, month := 4, day := 10 } }

/-- A June payment of exactly 3000 on the sample loan. -/
def payFull : Payment :=
  { loan_id := 1, payment_date := { year := 2025, month := 6, day := 10 }, amount := 3000 }

/-- A June payment of 2999.99 on the sample loan. -/
def payShort : Payment :=
  { loan_id := 1, payment_date := { year := 2025, month := 6, day := 10 },
    amount := 299999/100 }

/-- Store in which the sample loan received exactly the expected 3000. -/
def dbPaidFull : DB :=
  { loans := [loan9000], clients := [clientA], payments := [payFull], gun_licences := [] }

/-- Store in which the sample loan received only 2999.99. -/
def dbPaidShort : DB :=
  { loans := [loan9000], clients := [clientA], payments := [payShort], gun_licences := [] }

/-- A sample overdue loan of 5000 with no penalties yet and no payments. -/
def loan5000 : Loan :=
  { id := 2, invoice_number := 102, client_id := 1, loan_amount := 5000,
    remaining_balance := 5000, penalties := some 0, weapon_cost := none,
    status := LoanStatus.overdue,
    payment_due_date := { year := 2025, month := 5, day := 28 },
    start_date := { year := 2025, month := 4, day := 10 } }

/-- Store holding only the sample overdue loan, with no payments. -/
def dbPenalty : DB :=
  { loans := [loan5000], clients := [clientA], payments := [], gun_licences := [] }

/-- The 3rd of June 2025, the penalty-application day. -/
def nowJun3 : Date := { year := 2025, month := 6, day := 3 }

/-- The 22nd of June 2025, the primary-run day. -/
def nowJun22 : Date := { year := 2025, month := 6, day := 22 }

/-- A sample active loan due next month with a remaining balance of 750. -/
def loanBalance750 : Loan :=
  { id := 3, invoice_number := 103, client_id := 1, loan_amount := 2250,
    remaining_balance := 750, penalties := none, weapon_cost := none,
    status := LoanStatus.active,
    payment_due_date := { year := 2025, month := 7, day := 15 },
    start_date := { year := 2025, month := 4, day := 10 } }

/-- A sample active loan due next month that is fully paid. -/
def loanBalance0 : Loan :=
  { id := 4, invoice_number := 104, client_id := 1, loan_amount := 2250,
    remaining_balance := 0, penalties := none, weapon_cost := none,
    status := LoanStatus.active,
    payment_due_date := { year := 2025, month := 7, day := 20 },
    start_date := { year := 2025, month := 4, day := 10 } }

/-- Store holding the two classification sample loans. -/
def dbClassify : DB :=
  { loans := [loanBalance750, loanBalance0], clients := [clientA], payments := [],
    gun_licences := [] }

/-- A sample loan carrying a penalties value of 2. -/
def loanPenalised : Loan :=
  { id := 5, invoice_number := 105, client_id := 1, loan_amount := 9000,
    remaining_balance := 6000, penalties := some 2, weapon_cost := none,
    status := LoanStatus.overdue,
    payment_due_date := { year := 2025, month := 7, day := 15 },
    start_date := { year := 2025, month := 4, day := 10 } }

/-- A sample loan whose start date is 31 January 2025. -/
def loanStart31Jan : Loan :=
  { id := 6, invoice_number := 106, client_id := 1, loan_amount := 9000,
    remaining_balance := 6000, penalties := none, weapon_cost := none,
    status := LoanStatus.active,
    payment_due_date := { year := 2025, month := 7, day := 15 },
    start_date := { year := 2025, month := 1, day := 31 } }

/-- A sample loan due on 31 March 2025. -/
def loanDue31Mar : Loan :=
  { id := 7, invoice_number := 107, client_id := 1, loan_amount := 9000,
    remaining_balance := 6000, penalties := none, weapon_cost := none,
    status := LoanStatus.active,
    payment_due_date := { year := 2025, month := 3, day := 31 },
    start_date := { year := 2025, month := 1, day := 10 } }

/-- How a stored loan may relate to its state after a run: every column
other than status and penalties is unchanged; status is unchanged or set
to overdue; penalties is unchanged or set to the previous value plus the
new 10 percent penalty. -/
def loan_frame (l l2 : Loan) : Prop :=
  l2.id = l.id ∧ l2.invoice_number = l.invoice_number ∧ l2.client_id = l.client_id ∧
  l2.loan_amount = l.loan_amount ∧ l2.remaining_balance = l.remaining_balance ∧
  l2.weapon_cost = l.weapon_cost ∧ l2.payment_due_date = l.payment_due_date ∧
  l2.start_date = l.start_date ∧
  (l2.status = l.status ∨ l2.status = LoanStatus.overdue) ∧
  (l2.penalties = l.penalties ∨
    l2.penalties = some (l.penalties.getD 0 + round2 (l.loan_amount * (1/10))))

/-- The concrete email content computed for the sample penalised loan. -/
def invoicePenalised : InvoiceEmail :=
  { is_statement := true
    due_date := { year := 2025, month := 7, day := 28 }
    base_payment := 3000
    payment_amount := 9600
    displayed_payment_amount := 9600
    first_payment_month := { year := 2025, month := 5, day := 10 }
    second_payment_month := { year := 2025, month := 6, day := 10 }
    third_payment_month := { year := 2025, month := 7, day := 10 } }

/-- C5: the payment-sufficiency test used by apply_penalties_to_overdue_loans
(loans.py:1209-1259) is exactly the test used by update_overdue_loans
(loans.py:740-781): both sum the loan's payment amounts with payment_date
between the first day of the current month and now and skip the loan when
that sum reaches round(loan_amount / 3, 2); on every loan, payment history
and instant the two verdicts coincide. -/
theorem C5_sufficiency_equivalence :
    ∀ (l : Loan) (payments : List Payment) (now : Date),
      sufficient_for_overdue_skip l payments now = sufficient_for_penalty_skip l payments now :=
  fun _ _ _ => rfl

/-- C10: the five batch operations never propagate a failure to the caller;
when the operation as a whole fails (its backing query fails even after the
retries are exhausted) the result is the count 0, or the pair (0, 0) for the
penalty operation; a per-loan payments-query failure in update_overdue_loans
likewise only skips loans and yields a count, 0 when no loan was updated.
The operations are total functions into Nat (or Nat x Nat) for every input,
mirroring the outermost try/except blocks at loans.py:833-835, 1320-1322,
1102-1104, 1627-1629 and 1889-1891. -/
theorem C10_batch_zero_on_failure :
    (∀ (paymentsQ : Nat → Except Unit (List Payment)),
        update_overdue_loans_run (Except.error ()) paymentsQ = 0)
    ∧ (∀ (bypass : Bool) (day : Nat) (paymentsQ : Nat → Except Unit (List Payment)),
        apply_penalties_run bypass day (Except.error ()) paymentsQ = (0, 0))
    ∧ (∀ (clientQ : Nat → Except Unit (List Client)),
        notify_overdue_run (Except.error ()) clientQ = 0)
    ∧ (∀ (day : Nat) (clients : List Client),
        send_payment_reminders_run day (Except.error ()) clients = 0)
    ∧ (∀ (day : Nat) (clientQ : Nat → Except Unit (List Client)),
        send_due_date_reminders_run day (Except.error ()) clientQ = 0)
    ∧ (∀ (ls : List Loan),
        update_overdue_loans_run (Except.ok ls) (fun _ => Except.error ()) = 0) := by
  refine ⟨fun _ => rfl, ?_, fun _ => rfl, ?_, ?_, ?_⟩
  · intro bypass day paymentsQ
    unfold apply_penalties_run
    split <;> rfl
  · intro day clients
    unfold send_payment_reminders_run
    split
    · rfl
    · rfl
  · intro day clientQ
    unfold send_due_date_reminders_run
    split <;> rfl
  · intro ls
    unfold update_overdue_loans_run
    induction ls with
    | nil => rfl
    | cons h t ih => exact ih


/-- Evaluation: the expected monthly payment on a loan amount of 9000. -/
lemma round2_of_9000 : round2 ((9000 : ℚ) / 3) = 3000 := by norm_num [round2, roundHalfEven]

/-- Evaluation: the expected monthly payment on a loan amount of 5000. -/
lemma round2_of_5000_div3 : round2 ((5000 : ℚ) / 3) = 166667/100 := by
  norm_num [round2, roundHalfEven]

/-- Evaluation: the 10 percent penalty on a loan amount of 5000. -/
lemma round2_of_5000_tenth : round2 ((5000 : ℚ) * (1/10)) = 500 := by
  norm_num [round2, roundHalfEven]

/-- Evaluation: the June payments of the sample loan paid in full. -/
lemma month_overdue_full :
    month_payments_for_overdue [payFull] loan9000.id nowJun15 = 3000 := by
  simp [month_payments_for_overdue, payFull, loan9000, nowJun15, dateLE, firstOfMonth, Date.key]

/-- Evaluation: the June payments of the sample loan paid short. -/
lemma month_overdue_short :
    month_payments_for_overdue [payShort] loan9000.id nowJun15 = 299999/100 := by
  simp [month_payments_for_overdue, payShort, loan9000, nowJun15, dateLE, firstOfMonth, Date.key]

/-- Evaluation: the sample loan amount. -/
lemma loan9000_amount : loan9000.loan_amount = 9000 := rfl

/-- Evaluation: payments of 3000 are sufficient for the sample loan. -/
lemma suff_full : sufficient_for_overdue_skip loan9000 [payFull] nowJun15 = true := by
  simp only [sufficient_for_overdue_skip, month_overdue_full, loan9000_amount, round2_of_9000,
    decide_eq_true_eq]
  norm_num

/-- Evaluation: payments of 2999.99 are insufficient for the sample loan. -/
lemma suff_short : sufficient_for_overdue_skip loan9000 [payShort] nowJun15 = false := by
  simp only [sufficient_for_overdue_skip, month_overdue_short, loan9000_amount, round2_of_9000,
    decide_eq_false_iff_not]
  norm_num

/-- Evaluation: the fully paid sample loan is not transitioned. -/
lemma becomes_full : becomes_overdue [payFull] nowJun15 loan9000 = false := by
  simp [becomes_overdue, suff_full]

/-- Evaluation: the short-paid sample loan is transitioned. -/
lemma becomes_short : becomes_overdue [payShort] nowJun15 loan9000 = true := by
  simp [becomes_overdue, suff_short]
  decide

/-- Evaluation: a loan with no payments this month. -/
lemma month_penalty_nil (lid : Nat) (now : Date) :
    month_payments_for_penalty [] lid now = 0 := rfl

/-- Evaluation: with no payments, a loan of amount 5000 is insufficient. -/
lemma suff_penalty_5000 (l : Loan) (h : l.loan_amount = 5000) :
    sufficient_for_penalty_skip l [] nowJun3 = false := by
  simp only [sufficient_for_penalty_skip, month_penalty_nil, h, round2_of_5000_div3,
    decide_eq_false_iff_not]
  norm_num

/-- Evaluation: an unpaid overdue loan of amount 5000 gets the penalty. -/
lemma gets_penalty_5000 (l : Loan) (ha : l.loan_amount = 5000)
    (hs : l.status = LoanStatus.overdue) : gets_penalty [] nowJun3 l = true := by
  simp [gets_penalty, suff_penalty_5000 l ha, hs]

/-- Evaluation: the first penalty application on the sample loan of 5000. -/
lemma penalty_step_first :
    penalty_step [] nowJun3 loan5000 = { loan5000 with penalties := some 500 } := by
  have h := gets_penalty_5000 loan5000 rfl rfl
  simp only [penalty_step, h, if_true]
  have hv : loan5000.penalties.getD 0 + new_penalty_of loan5000 = 500 := by
    have h1 : loan5000.penalties.getD 0 = 0 := rfl
    have h2 : new_penalty_of loan5000 = 500 := by
      unfold new_penalty_of
      rw [show loan5000.loan_amount = 5000 from rfl, round2_of_5000_tenth]
    rw [h1, h2]
    norm_num
  rw [hv]

/-- Evaluation: the second penalty application on the sample loan of 5000. -/
lemma penalty_step_second :
    penalty_step [] nowJun3 { loan5000 with penalties := some 500 }
      = { loan5000 with penalties := some 1000 } := by
  have h := gets_penalty_5000 { loan5000 with penalties := some 500 } rfl rfl
  simp only [penalty_step, h, if_true]
  have hv : ({ loan5000 with penalties := some 500 } : Loan).penalties.getD 0
      + new_penalty_of { loan5000 with penalties := some 500 } = 1000 := by
    have h1 : ({ loan5000 with penalties := some 500 } : Loan).penalties.getD 0 = 500 := rfl
    have h2 : new_penalty_of { loan5000 with penalties := some 500 } = 500 := by
      unfold new_penalty_of
      rw [show ({ loan5000 with penalties := some 500 } : Loan).loan_amount = 5000 from rfl,
        round2_of_5000_tenth]
    rw [h1, h2]
    norm_num
  rw [hv]

/-- Evaluation: on the 3rd of June the penalty date gate passes. -/
lemma apply_gate_jun3 : (!false && !(nowJun3.day == 3)) = false := by decide

/-- Evaluation: the store after one penalty run on the sample loan. -/
lemma apply_penalties_once :
    (apply_penalties_to_overdue_loans dbPenalty nowJun3 false).1
      = { dbPenalty with loans := [{ loan5000 with penalties := some 500 }] } := by
  simp [apply_penalties_to_overdue_loans, apply_gate_jun3, dbPenalty, penalty_step_first,
    show nowJun3.day = 3 from rfl]

/-- Evaluation: the email content computed for the sample penalised loan. -/
lemma create_email_penalised :
    create_invoice_email loanPenalised true = Except.ok invoicePenalised := by
  have hsched : payment_schedule_months loanPenalised.start_date
      = Except.ok ({ year := 2025, month := 5, day := 10 },
          { year := 2025, month := 6, day := 10 }, { year := 2025, month := 7, day := 10 }) := rfl
  unfold create_invoice_email
  rw [hsched]
  norm_num [invoicePenalised, loanPenalised, normalizeDueDate, daysInMonth, isLeapYear,
    Option.getD, round2, roundHalfEven]

/-- C1: for every active loan past its due date, update_overdue_loans
compares the loan's payments dated within the current month against
round(loan_amount / 3, 2): when the sum reaches the expected payment the
status is left active, otherwise it is set to overdue.  A loan amount of
9000.00 gives the expected payment 3000.00; on the sample store, payments
of 3000 leave the loan active and payments of 2999.99 mark it overdue. -/
theorem C1_overdue_transition :
    (∀ (db : DB) (now : Date) (i : Nat) (l l2 : Loan),
        db.loans[i]? = some l →
        ((update_overdue_loans db now).1.loans)[i]? = some l2 →
        l.status = LoanStatus.active →
        dateLT l.payment_due_date now = true →
        ((round2 (l.loan_amount / 3) ≤ month_payments_for_overdue db.payments l.id now →
            l2.status = LoanStatus.active)
         ∧ (month_payments_for_overdue db.payments l.id now < round2 (l.loan_amount / 3) →
            l2.status = LoanStatus.overdue)))
    ∧ round2 ((9000 : ℚ) / 3) = 3000
    ∧ (update_overdue_loans dbPaidFull nowJun15).1.loans.map Loan.status = [LoanStatus.active]
    ∧ (update_overdue_loans dbPaidShort nowJun15).1.loans.map Loan.status
        = [LoanStatus.overdue] := by
  refine ⟨?_, round2_of_9000, ?_, ?_⟩
  · intro db now i l l2 h1 h2 hact hdue
    have hmap : ((update_overdue_loans db now).1.loans)[i]?
        = (db.loans[i]?).map (overdue_step db.payments now) := by
      simp [update_overdue_loans, List.getElem?_map]
    rw [hmap, h1] at h2
    have hl2 : l2 = overdue_step db.payments now l := by
      simpa using h2.symm
    subst hl2
    constructor
    · intro hsuff
      have hs : sufficient_for_overdue_skip l db.payments now = true := by
        simp only [sufficient_for_overdue_skip, decide_eq_true_eq]
        exact hsuff
      simp [overdue_step, becomes_overdue, hs, hact]
    · intro hshort
      have hs : sufficient_for_overdue_skip l db.payments now = false := by
        simp only [sufficient_for_overdue_skip, decide_eq_false_iff_not]
        exact not_le.mpr hshort
      simp [overdue_step, becomes_overdue, hs, hact, hdue]
  · simp only [update_overdue_loans, dbPaidFull, List.map_cons, List.map_nil, overdue_step,
      becomes_full]
    decide
  · simp only [update_overdue_loans, dbPaidShort, List.map_cons, List.map_nil, overdue_step,
      becomes_short]
    decide

/-- Witness for C1 at the sample store with the short payment. -/
theorem C1_overdue_transition_witness :
    dbPaidShort.loans[0]? = some loan9000 ∧
    ((update_overdue_loans dbPaidShort nowJun15).1.loans)[0]?
      = some { loan9000 with status := LoanStatus.overdue } ∧
    loan9000.status = LoanStatus.active ∧
    dateLT loan9000.payment_due_date nowJun15 = true ∧
    month_payments_for_overdue dbPaidShort.payments loan9000.id nowJun15 <
      round2 (loan9000.loan_amount / 3) ∧
    ({ loan9000 with status := LoanStatus.overdue } : Loan).status = LoanStatus.overdue := by
  have hget : ((update_overdue_loans dbPaidShort nowJun15).1.loans)[0]?
      = some { loan9000 with status := LoanStatus.overdue } := by
    simp only [update_overdue_loans, dbPaidShort, List.map_cons, List.map_nil, overdue_step,
      becomes_short]
    rfl
  have hlt : month_payments_for_overdue dbPaidShort.payments loan9000.id nowJun15 <
      round2 (loan9000.loan_amount / 3) := by
    have h : dbPaidShort.payments = [payShort] := rfl
    rw [h, month_overdue_short, loan9000_amount, round2_of_9000]
    norm_num
  refine ⟨rfl, hget, rfl, rfl, hlt, ?_⟩
  exact (C1_overdue_transition.1 dbPaidShort nowJun15 0 loan9000
    { loan9000 with status := LoanStatus.overdue } rfl hget rfl rfl).2 hlt

/-- C2: on the 3rd of the month or with the bypass flag, every overdue loan
whose payments this month are insufficient has round(loan_amount * 0.1, 2)
added to its stored penalties, cumulatively and never reset: a loan of 5000
with penalties 0 ends at 500.00, and a second run the same day with no new
payments adds the same amount again, reaching 1000.00 - the operation is
not idempotent. -/
theorem C2_penalty_accumulation :
    (∀ (db : DB) (now : Date) (bypass : Bool) (i : Nat) (l l2 : Loan),
        (bypass = true ∨ now.day = 3) →
        db.loans[i]? = some l →
        ((apply_penalties_to_overdue_loans db now bypass).1.loans)[i]? = some l2 →
        l.status = LoanStatus.overdue →
        month_payments_for_penalty db.payments l.id now < round2 (l.loan_amount / 3) →
        l2.penalties = some (l.penalties.getD 0 + round2 (l.loan_amount * (1/10))))
    ∧ round2 ((5000 : ℚ) * (1/10)) = 500
    ∧ (apply_penalties_to_overdue_loans dbPenalty nowJun3 false).1.loans.map Loan.penalties
        = [some 500]
    ∧ ((apply_penalties_to_overdue_loans
          (apply_penalties_to_overdue_loans dbPenalty nowJun3 false).1
          nowJun3 false).1.loans.map Loan.penalties) = [some 1000] := by
  refine ⟨?_, round2_of_5000_tenth, ?_, ?_⟩
  · intro db now bypass i l l2 hgate h1 h2 hov hshort
    have hg : (!bypass && !(now.day == 3)) = false := by
      rcases hgate with h | h
      · simp [h]
      · simp [h]
    have hmap : ((apply_penalties_to_overdue_loans db now bypass).1.loans)[i]?
        = (db.loans[i]?).map (penalty_step db.payments now) := by
      simp [apply_penalties_to_overdue_loans, hg, List.getElem?_map]
    rw [hmap, h1] at h2
    have hl2 : l2 = penalty_step db.payments now l := by
      simpa using h2.symm
    subst hl2
    have hs : sufficient_for_penalty_skip l db.payments now = false := by
      simp only [sufficient_for_penalty_skip, decide_eq_false_iff_not]
      exact not_le.mpr hshort
    simp [penalty_step, gets_penalty, hs, hov, new_penalty_of]
  · rw [apply_penalties_once]
    rfl
  · rw [apply_penalties_once]
    simp [apply_penalties_to_overdue_loans, show nowJun3.day = 3 from rfl, dbPenalty,
      penalty_step_second]

/-- Witness for C2 at the sample overdue loan of 5000. -/
theorem C2_penalty_accumulation_witness :
    ((false : Bool) = true ∨ nowJun3.day = 3) ∧
    dbPenalty.loans[0]? = some loan5000 ∧
    ((apply_penalties_to_overdue_loans dbPenalty nowJun3 false).1.loans)[0]?
      = some { loan5000 with penalties := some 500 } ∧
    loan5000.status = LoanStatus.overdue ∧
    month_payments_for_penalty dbPenalty.payments loan5000.id nowJun3 <
      round2 (loan5000.loan_amount / 3) ∧
    ({ loan5000 with penalties := some 500 } : Loan).penalties
      = some (loan5000.penalties.getD 0 + round2 (loan5000.loan_amount * (1/10))) := by
  have hget : ((apply_penalties_to_overdue_loans dbPenalty nowJun3 false).1.loans)[0]?
      = some { loan5000 with penalties := some 500 } := by
    rw [apply_penalties_once]
    rfl
  have hlt : month_payments_for_penalty dbPenalty.payments loan5000.id nowJun3 <
      round2 (loan5000.loan_amount / 3) := by
    have h : dbPenalty.payments = [] := rfl
    rw [h, month_penalty_nil, show loan5000.loan_amount = (5000 : ℚ) from rfl,
      round2_of_5000_div3]
    norm_num
  refine ⟨Or.inr rfl, rfl, hget, rfl, hlt, ?_⟩
  exact C2_penalty_accumulation.1 dbPenalty nowJun3 false 0 loan5000
    { loan5000 with penalties := some 500 } (Or.inr rfl) rfl hget rfl hlt

/-- C3: the payment amount displayed by create_invoice_email equals
base_payment = round(loan_amount / 3, 2) when the penalties value is 0 or
the column is absent, and equals
round(base + penalties * base + penalties * base * 0.10, 2) when
penalties > 0: the stored penalties value multiplies the base payment as a
missed-payment count, it is not added as an accumulated currency amount. -/
theorem C3_displayed_payment_amount :
    ∀ (l : Loan) (q : Bool) (inv : InvoiceEmail),
      create_invoice_email l q = Except.ok inv →
      ((l.penalties.getD 0 = 0 →
          inv.displayed_payment_amount = round2 (l.loan_amount / 3))
       ∧ (0 < l.penalties.getD 0 →
          inv.displayed_payment_amount =
            round2 (round2 (l.loan_amount / 3) + l.penalties.getD 0 * round2 (l.loan_amount / 3)
              + l.penalties.getD 0 * round2 (l.loan_amount / 3) * (1/10)))) := by
  intro l q inv h
  unfold create_invoice_email at h
  cases hs : payment_schedule_months l.start_date with
  | error e =>
    rw [hs] at h
    exact absurd h (by simp)
  | ok s =>
    rw [hs] at h
    have hinv := (Except.ok.injEq _ _).mp h
    constructor
    · intro h0
      rw [← hinv]
      simp [h0]
    · intro hpos
      rw [← hinv]
      have hne : l.penalties.getD 0 ≠ 0 := ne_of_gt hpos
      simp [hne, hpos]

/-- Witness for C3 at the sample loan with penalties value 2. -/
theorem C3_displayed_payment_amount_witness :
    create_invoice_email loanPenalised true = Except.ok invoicePenalised ∧
    0 < loanPenalised.penalties.getD 0 ∧
    invoicePenalised.displayed_payment_amount =
      round2 (round2 (loanPenalised.loan_amount / 3)
        + loanPenalised.penalties.getD 0 * round2 (loanPenalised.loan_amount / 3)
        + loanPenalised.penalties.getD 0 * round2 (loanPenalised.loan_amount / 3) * (1/10)) := by
  refine ⟨create_email_penalised, by norm_num [loanPenalised], ?_⟩
  exact (C3_displayed_payment_amount loanPenalised true invoicePenalised
    create_email_penalised).2 (by norm_num [loanPenalised])

/-- Evaluation: the loans due in July found on the sample 22 June run. -/
lemma loans_due_next_classify :
    get_loans_due_next_month dbClassify nowJun22
      = [enrich_loan loanBalance750, enrich_loan loanBalance0] := rfl

/-- C4 counterexample: the banner of send_due_date_reminders
(loans.py:1767-1770, 1837) presents the stored due date of a loan due on
31 March 2025 as day 31, not as the normalized day 28: not every due date
presented in a notification is normalized. -/
theorem C4_counterexample :
    due_date_reminder_displayed_date loanDue31Mar
        = { year := 2025, month := 3, day := 31 } ∧
    normalizeDueDate loanDue31Mar.payment_due_date
        = { year := 2025, month := 3, day := 28 } ∧
    due_date_reminder_displayed_date loanDue31Mar
        ≠ normalizeDueDate loanDue31Mar.payment_due_date := by
  refine ⟨rfl, by decide, by decide⟩

/-- C4 (amended): the due date shown by create_invoice_email and the due
dates of the loans prepared by get_loans_due_next_month (used by the
statement/invoice run, the payment reminders and the overdue notices) are
normalized to day min 28 (last calendar day of the due month), keeping
month and year - day 28 both in a 31-day month and in non-leap February;
the banner of send_due_date_reminders, however, presents the stored due
date unnormalized. -/
theorem C4_due_date_normalization :
    (∀ (d : Date), normalizeDueDate d
        = { year := d.year, month := d.month, day := min 28 (daysInMonth d.year d.month) })
    ∧ (∀ (l : Loan) (q : Bool) (inv : InvoiceEmail),
        create_invoice_email l q = Except.ok inv →
        inv.due_date = normalizeDueDate l.payment_due_date)
    ∧ (∀ (db : DB) (now : Date) (l : Loan),
        l ∈ get_loans_due_next_month db now →
        l.payment_due_date.day
          = min 28 (daysInMonth l.payment_due_date.year l.payment_due_date.month))
    ∧ normalizeDueDate { year := 2025, month := 1, day := 31 }
        = { year := 2025, month := 1, day := 28 }
    ∧ normalizeDueDate { year := 2025, month := 2, day := 14 }
        = { year := 2025, month := 2, day := 28 } := by
  refine ⟨fun d => rfl, ?_, ?_, by decide, by decide⟩
  · intro l q inv h
    unfold create_invoice_email at h
    cases hs : payment_schedule_months l.start_date with
    | error e =>
      rw [hs] at h
      exact absurd h (by simp)
    | ok s =>
      rw [hs] at h
      have hinv := (Except.ok.injEq _ _).mp h
      rw [← hinv]
  · intro db now l hm
    unfold get_loans_due_next_month at hm
    rcases List.mem_map.1 hm with ⟨l0, _, rfl⟩
    simp [enrich_loan, normalizeDueDate]

/-- Witness for the amended C4 at the sample penalised loan. -/
theorem C4_due_date_normalization_witness :
    create_invoice_email loanPenalised true = Except.ok invoicePenalised ∧
    invoicePenalised.due_date = normalizeDueDate loanPenalised.payment_due_date :=
  ⟨create_email_penalised,
   C4_due_date_normalization.2.1 loanPenalised true invoicePenalised create_email_penalised⟩

/-- C6: on a 22nd-of-month primary run (or with the test bypass), every loan
found due next month is classified by its remaining balance: positive
balance gives a Statement, balance 0 gives a paid Invoice; on the sample
store the loan with balance 750.00 classifies as a Statement and the fully
paid one as a paid Invoice. -/
theorem C6_statement_invoice_classification :
    (∀ (db : DB) (now : Date) (tm : Bool) (l : Loan),
        (now.day = 22 ∨ tm = true) →
        l ∈ get_loans_due_next_month db now →
        ((0 < l.remaining_balance →
            (l.id, DocumentType.statement) ∈ main_classify_run db now tm)
         ∧ (l.remaining_balance = 0 →
            (l.id, DocumentType.paidInvoice) ∈ main_classify_run db now tm)))
    ∧ main_classify_run dbClassify nowJun22 false
        = [(3, DocumentType.statement), (4, DocumentType.paidInvoice)] := by
  constructor
  · intro db now tm l hday hm
    have hg : (!tm && !(now.day == 22)) = false := by
      rcases hday with h | h
      · simp [h]
      · simp [h]
    constructor
    · intro hrb
      simp only [main_classify_run, hg, Bool.false_eq_true, if_false]
      refine List.mem_map.2 ⟨l, hm, ?_⟩
      simp [hrb]
    · intro h0
      simp only [main_classify_run, hg, Bool.false_eq_true, if_false]
      refine List.mem_map.2 ⟨l, hm, ?_⟩
      simp [h0]
  · have hg : (!false && !(nowJun22.day == 22)) = false := by decide
    simp only [main_classify_run, hg, Bool.false_eq_true, if_false, loans_due_next_classify,
      List.map_cons, List.map_nil]
    have h1 : (enrich_loan loanBalance750).remaining_balance = 750 := rfl
    have h2 : (enrich_loan loanBalance0).remaining_balance = 0 := rfl
    have h3 : (enrich_loan loanBalance750).id = 3 := rfl
    have h4 : (enrich_loan loanBalance0).id = 4 := rfl
    rw [h1, h2, h3, h4]
    norm_num

/-- Witness for C6 at the sample loan with balance 750. -/
theorem C6_statement_invoice_classification_witness :
    (nowJun22.day = 22 ∨ (false : Bool) = true) ∧
    enrich_loan loanBalance750 ∈ get_loans_due_next_month dbClassify nowJun22 ∧
    0 < (enrich_loan loanBalance750).remaining_balance ∧
    ((enrich_loan loanBalance750).id, DocumentType.statement)
      ∈ main_classify_run dbClassify nowJun22 false := by
  have hmem : enrich_loan loanBalance750 ∈ get_loans_due_next_month dbClassify nowJun22 := by
    rw [loans_due_next_classify]
    exact List.mem_cons_self _ _
  have hrb : 0 < (enrich_loan loanBalance750).remaining_balance := by
    have h : (enrich_loan loanBalance750).remaining_balance = 750 := rfl
    rw [h]
    norm_num
  exact ⟨Or.inl rfl, hmem, hrb,
    (C6_statement_invoice_classification.1 dbClassify nowJun22 false _ (Or.inl rfl) hmem).1 hrb⟩

/-- C9: for every loan whose start date falls on day 29, 30 or 31 of a month
whose following month has fewer days than that - for example 31 January -
create_invoice_email raises ValueError while computing the payment-schedule
months by datetime.replace with an out-of-range day, so the notification
for such a loan is skipped by main and no email is ever rendered for it. -/
theorem C9_schedule_value_error :
    ∀ (l : Loan) (q : Bool),
      29 ≤ l.start_date.day →
      daysInMonth (next_month_of l.start_date.year l.start_date.month).1
          (next_month_of l.start_date.year l.start_date.month).2 < l.start_date.day →
      create_invoice_email l q = Except.error () ∧ main_loan_email l = none := by
  intro l q h29 hlt
  have hrep : date_replace_month_year l.start_date
      (next_month_of l.start_date.year l.start_date.month).1
      (next_month_of l.start_date.year l.start_date.month).2 = Except.error () := by
    unfold date_replace_month_year
    rw [if_neg]
    intro hc
    exact absurd hc.2 (not_le.mpr hlt)
  have hsched : payment_schedule_months l.start_date = Except.error () := by
    unfold payment_schedule_months
    rw [hrep]
  constructor
  · simp [create_invoice_email, hsched]
  · simp [main_loan_email, create_invoice_email, hsched]

/-- Witness for C9 at the sample loan started on 31 January 2025. -/
theorem C9_schedule_value_error_witness :
    29 ≤ loanStart31Jan.start_date.day ∧
    daysInMonth (next_month_of loanStart31Jan.start_date.year
        loanStart31Jan.start_date.month).1
      (next_month_of loanStart31Jan.start_date.year loanStart31Jan.start_date.month).2
      < loanStart31Jan.start_date.day ∧
    create_invoice_email loanStart31Jan true = Except.error () ∧
    main_loan_email loanStart31Jan = none := by
  refine ⟨by decide, by decide, ?_, ?_⟩
  · exact (C9_schedule_value_error loanStart31Jan true (by decide) (by decide)).1
  · exact (C9_schedule_value_error loanStart31Jan true (by decide) (by decide)).2

/-- The overdue step touches only the status column, setting it to overdue. -/
lemma overdue_step_frame (p : List Payment) (now : Date) (l : Loan) :
    loan_frame l (overdue_step p now l) := by
  unfold loan_frame overdue_step
  split <;> simp

/-- One full run step (overdue update then penalty application) touches only
the status and penalties columns, in the two permitted ways. -/
lemma run_step_frame (p : List Payment) (now : Date) (l : Loan) :
    loan_frame l (penalty_step p now (overdue_step p now l)) := by
  unfold loan_frame penalty_step overdue_step new_penalty_of
  split <;> split <;> simp

/-- C7: one engine run issues exactly the two permitted kinds of loan write
and nothing else: update_overdue_loans changes only status (to overdue),
apply_penalties_to_overdue_loans changes only penalties (to the old value
plus the new penalty); clients, payments and gun licences are untouched and
no other loan column ever changes.  The notification operations are
modelled as count-valued reads and produce no store at all. -/
theorem C7_write_frame :
    ∀ (db : DB) (now : Date) (tm : Bool) (i : Nat) (l l2 : Loan),
      ((engine_run db now tm).1.clients = db.clients ∧
       (engine_run db now tm).1.payments = db.payments ∧
       (engine_run db now tm).1.gun_licences = db.gun_licences ∧
       (engine_run db now tm).1.loans.length = db.loans.length) ∧
      (db.loans[i]? = some l → ((engine_run db now tm).1.loans)[i]? = some l2 →
        loan_frame l l2) := by
  intro db now tm i l l2
  by_cases hg : (tm || now.day == 3) = true
  · have hin : (!tm && !(now.day == 3)) = false := by
      cases tm with
      | false =>
        simp only [Bool.false_or] at hg
        simp [hg]
      | true => simp
    have hrun : (engine_run db now tm).1
        = { db with loans := ((db.loans.map (overdue_step db.payments now)).map (penalty_step db.payments now)) } := by
      simp [engine_run, update_overdue_loans, apply_penalties_to_overdue_loans, hg, hin]
    rw [hrun]
    refine ⟨⟨rfl, rfl, rfl, by simp⟩, ?_⟩
    intro h1 h2
    rw [List.getElem?_map, List.getElem?_map, h1] at h2
    have hl2 : l2 = penalty_step db.payments now (overdue_step db.payments now l) := by
      simpa using h2.symm
    subst hl2
    exact run_step_frame db.payments now l
  · have hg2 : (tm || now.day == 3) = false := by
      simpa using hg
    have hrun : (engine_run db now tm).1
        = { db with loans := db.loans.map (overdue_step db.payments now) } := by
      simp [engine_run, update_overdue_loans, hg2]
    rw [hrun]
    refine ⟨⟨rfl, rfl, rfl, by simp⟩, ?_⟩
    intro h1 h2
    rw [List.getElem?_map, h1] at h2
    have hl2 : l2 = overdue_step db.payments now l := by
      simpa using h2.symm
    subst hl2
    exact overdue_step_frame db.payments now l

/-- Witness for C7 at the sample store with the short payment. -/
theorem C7_write_frame_witness :
    dbPaidShort.loans[0]? = some loan9000 ∧
    ((engine_run dbPaidShort nowJun15 false).1.loans)[0]?
      = some { loan9000 with status := LoanStatus.overdue } ∧
    loan_frame loan9000 { loan9000 with status := LoanStatus.overdue } := by
  have hget : ((engine_run dbPaidShort nowJun15 false).1.loans)[0]?
      = some { loan9000 with status := LoanStatus.overdue } := by
    have hc : (false || (nowJun15.day == 3)) = false := by decide
    simp only [engine_run, hc, Bool.false_eq_true, if_false, update_overdue_loans, dbPaidShort,
      List.map_cons, List.map_nil, overdue_step, becomes_short]
    rfl
  exact ⟨rfl, hget, (C7_write_frame dbPaidShort nowJun15 false 0 loan9000
    { loan9000 with status := LoanStatus.overdue }).2 rfl hget⟩

/-- A successful attempt ends the retry loop at once: one call, no waits. -/
lemma retry_aux_ok {α : Type} (f : Nat → Except PyErr α) (r : PyErr → Bool)
    (i b attempt fuel : Nat) (a : α) (hf : f attempt = Except.ok a) :
    retry_aux f r i b attempt (fuel + 1) = (Except.ok a, 1, []) := by
  unfold retry_aux
  simp [hf]

/-- A non-retryable failure propagates at once: one call, no waits. -/
lemma retry_aux_stop {α : Type} (f : Nat → Except PyErr α) (r : PyErr → Bool)
    (i b attempt fuel : Nat) (e : PyErr) (hf : f attempt = Except.error e)
    (hr : r e = false) :
    retry_aux f r i b attempt (fuel + 1) = (Except.error e, 1, []) := by
  unfold retry_aux
  simp [hf, hr]

/-- The last allowed attempt failing retryably raises that error. -/
lemma retry_aux_last {α : Type} (f : Nat → Except PyErr α) (r : PyErr → Bool)
    (i b attempt : Nat) (e : PyErr) (hf : f attempt = Except.error e) (hr : r e = true) :
    retry_aux f r i b attempt 1 = (Except.error e, 1, []) := by
  unfold retry_aux
  simp [hf, hr]

/-- A retryable failure with fuel left waits the exponential backoff time
and continues with the next attempt. -/
lemma retry_aux_step {α : Type} (f : Nat → Except PyErr α) (r : PyErr → Bool)
    (i b attempt fuel2 : Nat) (e : PyErr) (hf : f attempt = Except.error e)
    (hr : r e = true) :
    retry_aux f r i b attempt (fuel2 + 2)
      = ((retry_aux f r i b (attempt + 1) (fuel2 + 1)).1,
         (retry_aux f r i b (attempt + 1) (fuel2 + 1)).2.1 + 1,
         i * b ^ attempt :: (retry_aux f r i b (attempt + 1) (fuel2 + 1)).2.2) := by
  conv_lhs => rw [show fuel2 + 2 = (fuel2 + 1) + 1 from rfl, retry_aux]
  rw [hf]
  simp only [hr, if_true]

/-- The retry loop never makes more calls than its fuel allows. -/
lemma retry_aux_call_bound {α : Type} (f : Nat → Except PyErr α) (r : PyErr → Bool)
    (i b : Nat) : ∀ (fuel attempt : Nat), (retry_aux f r i b attempt fuel).2.1 ≤ fuel := by
  intro fuel
  induction fuel with
  | zero =>
    intro attempt
    simp [retry_aux]
  | succ fuel ih =>
    intro attempt
    cases hf : f attempt with
    | ok a =>
      rw [retry_aux_ok f r i b attempt fuel a hf]
      simp
    | error e =>
      cases hr : r e with
      | false =>
        rw [retry_aux_stop f r i b attempt fuel e hf hr]
        simp
      | true =>
        cases fuel with
        | zero =>
          rw [retry_aux_last f r i b attempt e hf hr]
        | succ fuel2 =>
          rw [show fuel2 + 1 + 1 = fuel2 + 2 from rfl,
            retry_aux_step f r i b attempt fuel2 e hf hr]
          exact Nat.succ_le_succ (ih (attempt + 1))

/-- C8 counterexample: the claim fails on the code in two ways.  First, the
database call sites leave exceptions_to_retry at its default (Exception,),
so a non-transient error (here a ValueError) is retried: the wrapped
operation is called a second time and the call even succeeds.  Second, the
connectivity probe of main (loans.py:497) is a remote query issued outside
retry_with_backoff: an operation that fails once and would succeed under
the wrapper simply fails there. -/
theorem C8_counterexample :
    (retry_with_backoff (fun n => if n = 0 then Except.error PyErr.valueError else Except.ok 1)
        3 1 2 db_retryable).2.1 = 2
    ∧ is_transient_transport_error PyErr.valueError = false
    ∧ main_connectivity_check
        (fun n => if n = 0 then Except.error PyErr.connectionError else Except.ok 1)
        = Except.error PyErr.connectionError
    ∧ (retry_with_backoff
        (fun n => if n = 0 then Except.error PyErr.connectionError else Except.ok 1)
        3 1 2 db_retryable).1 = Except.ok (some 1) :=
  ⟨rfl, rfl, rfl, rfl⟩

/-- C8 (amended): every remote call except the direct connectivity probe in
main goes through retry_with_backoff, which at the call sites invokes the
wrapped operation at most 3 times with exponential backoff starting at the
1 or 2 second initial delay and doubling factor used there, returns the
result immediately with no further attempts as soon as one attempt
succeeds, propagates a non-retryable error at once, and after all attempts
have failed raises the original (last) error; email sending retries only
the transient SMTP/connection/timeout errors, while database operations
retry on every exception. -/
theorem C8_retry_policy :
    (∀ (α : Type) (f : Nat → Except PyErr α) (a : α) (i b : Nat) (r : PyErr → Bool),
        f 0 = Except.ok a →
        retry_with_backoff f 3 i b r = (Except.ok (some a), 1, []))
    ∧ (∀ (α : Type) (f : Nat → Except PyErr α) (i b : Nat) (r : PyErr → Bool),
        (retry_with_backoff f 3 i b r).2.1 ≤ 3)
    ∧ (∀ (α : Type) (f : Nat → Except PyErr α) (e : PyErr) (i b : Nat) (r : PyErr → Bool),
        f 0 = Except.error e → r e = false →
        retry_with_backoff f 3 i b r = (Except.error e, 1, []))
    ∧ (∀ (α : Type) (f : Nat → Except PyErr α) (e0 e1 e2 : PyErr) (i b : Nat)
        (r : PyErr → Bool),
        f 0 = Except.error e0 → f 1 = Except.error e1 → f 2 = Except.error e2 →
        r e0 = true → r e1 = true → r e2 = true →
        retry_with_backoff f 3 i b r = (Except.error e2, 3, [i * b ^ 0, i * b ^ 1]))
    ∧ (∀ (e : PyErr), email_retryable e = is_transient_transport_error e)
    ∧ (∀ (e : PyErr), db_retryable e = true) := by
  refine ⟨?_, ?_, ?_, ?_, ?_, fun _ => rfl⟩
  · intro α f a i b r hf
    have hrw : retry_with_backoff f 3 i b r
        = (Except.map some (retry_aux f r i b 0 3).1, (retry_aux f r i b 0 3).2.1,
           (retry_aux f r i b 0 3).2.2) := rfl
    rw [hrw, show (3 : Nat) = 2 + 1 from rfl, retry_aux_ok f r i b 0 2 a hf]
    rfl
  · intro α f i b r
    have h : (retry_with_backoff f 3 i b r).2.1 = (retry_aux f r i b 0 3).2.1 := rfl
    rw [h]
    exact retry_aux_call_bound f r i b 3 0
  · intro α f e i b r hf hr
    have hrw : retry_with_backoff f 3 i b r
        = (Except.map some (retry_aux f r i b 0 3).1, (retry_aux f r i b 0 3).2.1,
           (retry_aux f r i b 0 3).2.2) := rfl
    rw [hrw, show (3 : Nat) = 2 + 1 from rfl, retry_aux_stop f r i b 0 2 e hf hr]
    rfl
  · intro α f e0 e1 e2 i b r h0 h1 h2 hr0 hr1 hr2
    have hrw : retry_with_backoff f 3 i b r
        = (Except.map some (retry_aux f r i b 0 3).1, (retry_aux f r i b 0 3).2.1,
           (retry_aux f r i b 0 3).2.2) := rfl
    rw [hrw, show (3 : Nat) = 1 + 2 from rfl, retry_aux_step f r i b 0 1 e0 h0 hr0,
      show (0 : Nat) + 1 = 1 from rfl, show (1 : Nat) + 1 = 0 + 2 from rfl,
      retry_aux_step f r i b 1 0 e1 h1 hr1, show (1 : Nat) + 1 = 2 from rfl,
      show (0 : Nat) + 1 = 1 from rfl, retry_aux_last f r i b 2 e2 h2 hr2]
    rfl
  · intro e
    cases e <;> rfl

/-- Witness for the amended C8: immediate success and full exhaustion. -/
theorem C8_retry_policy_witness :
    ((fun _ : Nat => (Except.ok 7 : Except PyErr Nat)) 0 = Except.ok 7) ∧
    retry_with_backoff (fun _ : Nat => (Except.ok 7 : Except PyErr Nat)) 3 1 2 db_retryable
      = (Except.ok (some 7), 1, []) ∧
    ((fun _ : Nat => (Except.error PyErr.timeoutError : Except PyErr Nat)) 0
        = Except.error PyErr.timeoutError) ∧
    email_retryable PyErr.timeoutError = true ∧
    retry_with_backoff (fun _ : Nat => (Except.error PyErr.timeoutError : Except PyErr Nat))
        3 2 2 email_retryable
      = (Except.error PyErr.timeoutError, 3, [2 * 2 ^ 0, 2 * 2 ^ 1]) :=
  ⟨rfl, C8_retry_policy.1 Nat _ 7 1 2 db_retryable rfl, rfl, rfl,
   C8_retry_policy.2.2.2.1 Nat _ PyErr.timeoutError PyErr.timeoutError PyErr.timeoutError 2 2
     email_retryable rfl rfl rfl rfl rfl rfl⟩

/-- Coherence of the two models of update_overdue_loans: when every query
succeeds and returns exactly the store's matching rows, the
failure-injected run model counts the same transitions as the pure store
model. -/
lemma update_overdue_loans_run_agrees (db : DB) (now : Date) :
    update_overdue_loans_run
        (Except.ok (db.loans.filter (fun l =>
          l.status == LoanStatus.active && dateLT l.payment_due_date now)))
        (fun lid => Except.ok (db.payments.filter (fun p =>
          p.loan_id == lid && dateLE (firstOfMonth now) p.payment_date &&
          dateLE p.payment_date now)))
      = (update_overdue_loans db now).2 := by
  have hfold : ∀ (ls : List Loan) (n : Nat),
      List.foldl (fun acc l =>
        if round2 (l.loan_amount / 3) ≤ (((db.payments.filter (fun p =>
            p.loan_id == l.id && dateLE (firstOfMonth now) p.payment_date &&
            dateLE p.payment_date now)).map Payment.amount).sum : ℚ) then acc
        else acc + 1) n ls
        = n + (ls.filter (fun l => !(sufficient_for_overdue_skip l db.payments now))).length := by
    intro ls
    induction ls with
    | nil => simp
    | cons h t ih =>
      intro n
      by_cases hs : round2 (h.loan_amount / 3) ≤ (((db.payments.filter (fun p =>
          p.loan_id == h.id && dateLE (firstOfMonth now) p.payment_date &&
          dateLE p.payment_date now)).map Payment.amount).sum : ℚ)
      · have hb : sufficient_for_overdue_skip h db.payments now = true := by
          simp only [sufficient_for_overdue_skip, month_payments_for_overdue,
            decide_eq_true_eq]
          exact hs
        simp only [List.foldl_cons, List.filter_cons, hb, Bool.not_true, Bool.false_eq_true,
          if_false]
        rw [if_pos hs, ih n]
      · have hb : sufficient_for_overdue_skip h db.payments now = false := by
          simp only [sufficient_for_overdue_skip, month_payments_for_overdue,
            decide_eq_false_iff_not]
          exact hs
        simp only [List.foldl_cons, List.filter_cons, hb, Bool.not_false, eq_self_iff_true,
          if_true]
        rw [if_neg hs, ih (n + 1)]
        simp only [List.length_cons]
        omega
  show List.foldl (fun acc l =>
      if round2 (l.loan_amount / 3) ≤ (((db.payments.filter (fun p =>
          p.loan_id == l.id && dateLE (firstOfMonth now) p.payment_date &&
          dateLE p.payment_date now)).map Payment.amount).sum : ℚ) then acc
      else acc + 1) 0
      (db.loans.filter (fun l =>
        l.status == LoanStatus.active && dateLT l.payment_due_date now))
    = (db.loans.filter (becomes_overdue db.payments now)).length
  rw [hfold, List.filter_filter]
  simp only [Nat.zero_add]
  congr 1
  apply List.filter_congr
  intro a _
  simp only [becomes_overdue]
  exact Bool.and_comm _ _
